import Mathlib

/-!
Shallow embedding of `src/insights.py` (Azure inventory and metrics
aggregator).  HTTP traffic is modelled explicitly: a call either raises a
transport exception (`none`) or returns a status code with a parsed JSON
body (`some ⟨status, body⟩`).  Python values read out of JSON dictionaries
with `.get` are modelled as `Option` fields, `requests.Response.ok` is
`status < 400`, `raise_for_status` raises for `400 ≤ status`, and an
uncaught Python exception is an `Except.error`.  Numeric metric values are
rationals.
-/

namespace AzureMetrics

/-- Python `str.lower()` (ASCII case folding, as used by the script). -/
def pyLower (s : String) : String := String.mk (s.data.map Char.toLower)

/-- Python `str.capitalize()`: first character upper-cased, rest lower-cased. -/
def pyCapitalize (s : String) : String :=
  match s.data with
  | [] => ""
  | c :: rest => String.mk (c.toUpper :: rest.map Char.toLower)

/-- Python `str.split('/')` on the character list: splits at every `'/'`,
keeping empty segments; the empty string yields `[[]]`. -/
def splitChars : List Char → List (List Char)
  | [] => [[]]
  | c :: rest =>
    if c = '/' then [] :: splitChars rest
    else
      match splitChars rest with
      | [] => [[c]]
      | g :: gs => (c :: g) :: gs

/-- Python `s.split('/')`. -/
def pySplit (s : String) : List String := (splitChars s.data).map (fun cs => String.mk cs)

/-- The resource-group segment of a hierarchical resource identifier:
Python `s.split('/')[4]`, `none` when the index raises `IndexError`. -/
def rgSeg (s : String) : Option String := (pySplit s).get? 4

/-- Substring occurrence on character lists (Python `sub in s`). -/
def hasSub (sub : List Char) : List Char → Bool
  | [] => sub.isEmpty
  | c :: rest => sub.isPrefixOf (c :: rest) || hasSub sub rest

/-- Python `sub in s` for strings. -/
def pyIn (sub s : String) : Bool := hasSub sub.data s.data

/-- An HTTP response that came back: status code plus parsed JSON body. -/
structure HttpResp (β : Type) where
  status : Nat
  body : β
deriving DecidableEq

/-- One upstream HTTP call: `none` models a raised transport exception. -/
abbrev Call (β : Type) := Option (HttpResp β)

/-- `requests.Response.ok`: true for status codes below 400. -/
def respOk {β : Type} (r : HttpResp β) : Bool := r.status < 400

/-- `requests.get` at a call site with no surrounding `try`: a transport
exception propagates as a Python exception. -/
def callRaise {β : Type} : Call β → Except String (HttpResp β)
  | none => .error "RequestException"
  | some r => .ok r

/-- A listing call followed by `raise_for_status()` and `.json().get("value", [])`. -/
def listCall {β : Type} : Call (List β) → Except String (List β)
  | none => .error "RequestException"
  | some r => if 400 ≤ r.status then .error "HTTPError" else .ok r.body

/-- A storage-account descriptor as read from the inventory JSON. -/
structure SA where
  name : Option String
  id : Option String
deriving DecidableEq

/-- One time-series data point: the `total` and `average` keys, `none` when
the key is missing or JSON `null`. -/
structure DataPoint where
  total : Option ℚ
  average : Option ℚ
deriving DecidableEq

/-- One metric object of a metrics response: `name.value` (missing → `""`)
and the `timeseries` list, each series being `some data` when its `data`
key is present. -/
structure Metric where
  name : String
  timeseries : List (Option (List DataPoint))
deriving DecidableEq

/-- Body of a metrics response: the `value` list. -/
structure MetricsBody where
  value : List Metric
deriving DecidableEq

/-- Sum reduction used for Transactions/Ingress/Egress:
`sum(point.get("total", 0) for point in datapoints if point.get("total") is not None)`. -/
def sumReduce (dps : List DataPoint) : ℚ := (dps.filterMap (fun p => p.total)).sum

/-- Average reduction used for UsedCapacity and the latency/availability
metrics: mean of the non-null `average` values, `0` when there are none
(`sum(values) / len(values) if values else 0`). -/
def avgReduce (dps : List DataPoint) : ℚ :=
  if dps.filterMap (fun p => p.average) = [] then 0
  else (dps.filterMap (fun p => p.average)).sum /
       ((dps.filterMap (fun p => p.average)).length : ℚ)

/-- Python dict assignment `d[k] = v` on an insertion-ordered association
list: an existing key keeps its position, a new key is appended. -/
def dictSet (d : List (String × ℚ)) (k : String) (v : ℚ) : List (String × ℚ) :=
  if d.any (fun p => p.1 = k) then d.map (fun p => if p.1 = k then (k, v) else p)
  else d ++ [(k, v)]

/-- Loop body for the UsedCapacity response (`url_capacity`). -/
def processCapacityMetric (metrics : List (String × ℚ)) (m : Metric) : List (String × ℚ) :=
  match m.timeseries.head? with
  | some (some dps) =>
    if pyLower m.name = "usedcapacity" then dictSet metrics "UsedCapacity" (avgReduce dps)
    else metrics
  | _ => metrics

/-- Loop body for the dimension-filtered response (`url_metrics`). -/
def processOtherMetric (metrics : List (String × ℚ)) (m : Metric) : List (String × ℚ) :=
  match m.timeseries.head? with
  | some (some dps) =>
    let mname := pyLower m.name
    if mname = "transactions" then dictSet metrics "Transactions" (sumReduce dps)
    else if mname = "ingress" ∨ mname = "egress" then
      dictSet metrics (pyCapitalize mname) (sumReduce dps)
    else if mname = "successe2elatency" then dictSet metrics "SuccessE2ELatency" (avgReduce dps)
    else if mname = "successserverlatency" then
      dictSet metrics "SuccessServerLatency" (avgReduce dps)
    else if mname = "availability" then dictSet metrics "Availability" (avgReduce dps)
    else metrics
  | _ => metrics

/-- Contribution of the UsedCapacity call: folded only when `response.ok`. -/
def capacityFold (r : HttpResp MetricsBody) (d : List (String × ℚ)) : List (String × ℚ) :=
  if respOk r then r.body.value.foldl processCapacityMetric d else d

/-- Contribution of the remaining-metrics call: folded only when `response.ok`. -/
def otherFold (r : HttpResp MetricsBody) (d : List (String × ℚ)) : List (String × ℚ) :=
  if respOk r then r.body.value.foldl processOtherMetric d else d

/-- `get_storage_account_metrics`: returns `none` (Python `None`) when the
descriptor has no truthy `id`, otherwise issues the two metric calls in
order and folds each `ok` response into one dict.  A transport exception in
either `requests.get` propagates (there is no `try` in this function). -/
def get_storage_account_metrics (storage_account : SA)
    (capResp metResp : Call MetricsBody) : Except String (Option (List (String × ℚ))) :=
  match storage_account.id with
  | none => .ok none
  | some rid =>
    if rid = "" then .ok none
    else
      match callRaise capResp with
      | .error e => .error e
      | .ok cap =>
        match callRaise metResp with
        | .error e => .error e
        | .ok met => .ok (some (otherFold met (capacityFold cap [])))

/-- `get_storage_accounts`: calls `get_token()` itself, then lists with
`raise_for_status()`. -/
def get_storage_accounts (tok : Except String String) (resp : Call (List SA)) :
    Except String (List SA) :=
  match tok with
  | .error e => .error e
  | .ok _ => listCall resp

/-- One row of `metrics_results` as built in `main`. -/
structure SAResult where
  storage_account : String
  resource_group : String
  metrics : Option (List (String × ℚ))
deriving DecidableEq

/-- A CSV cell for a metric column: a number or the `"N/A"` marker. -/
inductive Cell
  | num (q : ℚ)
  | na
deriving DecidableEq

/-- Python `metrics.get(k, 'N/A')` on the metric dict. -/
def dictGet (d : List (String × ℚ)) (k : String) : Cell :=
  match d.find? (fun p => p.1 = k) with
  | some p => .num p.2
  | none => .na

/-- The seven metric cells of a storage CSV row, in the column order of
`export_to_csv`; `result.get('metrics', {}) or {}` turns a `None` metric
dict into the empty dict. -/
def storageMetricCells (r : SAResult) : List Cell :=
  let metrics := r.metrics.getD []
  [dictGet metrics "Transactions", dictGet metrics "Ingress", dictGet metrics "Egress",
   dictGet metrics "UsedCapacity", dictGet metrics "SuccessE2ELatency",
   dictGet metrics "SuccessServerLatency", dictGet metrics "Availability"]

/-- Resource kind discriminator passed as `vm_type`. -/
inductive VmType
  | Compute
  | Arc
deriving DecidableEq

/-- Body of an `instanceView` response: the `statuses[*].code` strings for
native VMs (a missing `code` key is `""`), and `status.status` for Arc
machines (missing → `""`). -/
structure InstanceView where
  statuses : List String
  connStatus : String
deriving DecidableEq

/-- The `for status in data.get("statuses", [])` loop of `get_vm_power_state`:
first code containing `"powerstate"` (after lowering) decides running/stopped. -/
def findPowerState : List String → Option String
  | [] => none
  | code :: rest =>
    let c := pyLower code
    if pyIn "powerstate" c then some (if pyIn "running" c then "running" else "stopped")
    else findPowerState rest

/-- `get_vm_power_state`: non-200 responses and exceptions yield `"unknown"`;
a 200 Compute response with no power-state code falls through to `"unknown"`. -/
def get_vm_power_state (vm_type : VmType) (resp : Call InstanceView) : String :=
  match resp with
  | none => "unknown"
  | some r =>
    if r.status = 200 then
      match vm_type with
      | .Compute =>
        match findPowerState r.body.statuses with
        | some s => s
        | none => "unknown"
      | .Arc => if pyLower r.body.connStatus = "connected" then "running" else "stopped"
    else "unknown"

/-- An installed extension: its `name` (missing → `""`) and
`properties.provisioningState` (missing → `none`). -/
structure Ext where
  name : String
  provisioningState : Option String
deriving DecidableEq

/-- The per-extension test of `get_vm_insights_status`. -/
def extEnabled (e : Ext) : Bool :=
  let n := pyLower e.name
  pyIn "azuremonitor" n && pyIn "agent" n && e.provisioningState = some "Succeeded"

/-- `get_vm_insights_status`: extensions check, then DCR-association check,
else `"Not enabled"`; an exception in either call maps to `"Unknown"`. -/
def get_vm_insights_status (extResp : Call (List Ext)) (dcrResp : Call (List Unit)) : String :=
  match extResp with
  | none => "Unknown"
  | some er =>
    if er.status = 200 ∧ er.body.any extEnabled then "Enabled"
    else
      match dcrResp with
      | none => "Unknown"
      | some dr => if dr.status = 200 ∧ dr.body ≠ [] then "Enabled" else "Not enabled"

/-- A VM or Arc-machine descriptor from the inventory JSON. -/
structure VmDesc where
  name : Option String
  id : Option String
deriving DecidableEq

/-- The per-machine record appended to a resource group's `machines` list. -/
structure Machine where
  name : String
  type : VmType
  power_state : String
  monitored : Bool
  insights_status : String
deriving DecidableEq

/-- The `vm_metrics` dictionary of `get_vm_metrics`; `resource_groups` is an
insertion-ordered dict from group key to its `machines` list. -/
structure VmMetrics where
  total_machines : Nat
  total_monitored : Nat
  resource_groups : List (String × List Machine)
deriving DecidableEq

/-- `resource_id.split('/')[4].lower() if resource_id else "unknown"`:
the empty identifier is falsy; a non-empty identifier with fewer than five
segments raises `IndexError`. -/
def vmRgName (resource_id : String) : Except String String :=
  if resource_id = "" then .ok "unknown"
  else
    match rgSeg resource_id with
    | some s => .ok (pyLower s)
    | none => .error "IndexError: list index out of range"

/-- Append a machine to its group's list, creating the group entry on first
insertion (Python dict insertion order). -/
def dictInsert (groups : List (String × List Machine)) (k : String) (mach : Machine) :
    List (String × List Machine) :=
  match groups with
  | [] => [(k, [mach])]
  | (k', ms) :: rest =>
    if k' = k then (k', ms ++ [mach]) :: rest
    else (k', ms) :: dictInsert rest k mach

/-- `process_vm`: derives the group key (which may raise `IndexError`),
fetches power state and insights status, appends the machine record and
bumps the counters. -/
def process_vm (vm : VmDesc) (vm_type : VmType) (powerResp : Call InstanceView)
    (extResp : Call (List Ext)) (dcrResp : Call (List Unit)) (vm_metrics : VmMetrics) :
    Except String VmMetrics :=
  match vmRgName (vm.id.getD "") with
  | .error e => .error e
  | .ok rg_name =>
    let power_state := get_vm_power_state vm_type powerResp
    let insights_status := get_vm_insights_status extResp dcrResp
    let mach : Machine :=
      { name := vm.name.getD "Unnamed", type := vm_type, power_state := power_state,
        monitored := insights_status = "Enabled", insights_status := insights_status }
    .ok { total_machines := vm_metrics.total_machines + 1,
          total_monitored := vm_metrics.total_monitored +
            (if insights_status = "Enabled" then 1 else 0),
          resource_groups := dictInsert vm_metrics.resource_groups rg_name mach }

/-- `get_vms`: native-VM listing with `raise_for_status()`. -/
def get_vms (resp : Call (List VmDesc)) : Except String (List VmDesc) := listCall resp

/-- `get_arc_machines`: Arc listing with `raise_for_status()`. -/
def get_arc_machines (resp : Call (List VmDesc)) : Except String (List VmDesc) := listCall resp

/-- A network resource item as read from a listing response. -/
structure NetItem where
  name : Option String
  id : Option String
  provisioningState : Option String
deriving DecidableEq

/-- The `resource_info` record built per network item. -/
structure NetInfo where
  name : Option String
  resource_group : String
  provisioning_state : String
  health_state : String
deriving DecidableEq

/-- One entry of the `network_metrics` dict. -/
structure NetEntry where
  count : Nat
  items : List NetInfo
deriving DecidableEq

/-- Body of a resource-health response: `properties.availabilityState`. -/
structure HealthBody where
  availabilityState : Option String
deriving DecidableEq

/-- `get_resource_health`: `"Unknown"` for a falsy identifier, a non-ok
response, or an exception; an ok response yields the reported availability
state (default `"Unknown"`). -/
def get_resource_health (resource_id : Option String) (resp : Call HealthBody) : String :=
  match resource_id with
  | none => "Unknown"
  | some rid =>
    if rid = "" then "Unknown"
    else
      match resp with
      | none => "Unknown"
      | some r => if respOk r then r.body.availabilityState.getD "Unknown" else "Unknown"

/-- The `resource_info` value when the group segment exists. -/
def netInfoTotal (item : NetItem) (health : Option String → String) (rg : String) : NetInfo :=
  { name := item.name, resource_group := rg,
    provisioning_state := item.provisioningState.getD "Unknown",
    health_state := health item.id }

/-- Building `resource_info` for one item: `item.get('id', '').split('/')[4]`
raises `IndexError` when the identifier yields no fifth segment.  The group
segment is used verbatim (no case normalization). -/
def netInfoOfItem (item : NetItem) (health : Option String → String) : Except String NetInfo :=
  match rgSeg (item.id.getD "") with
  | some rg => .ok (netInfoTotal item health rg)
  | none => .error "IndexError: list index out of range"

/-- The `for item in items` loop under the per-kind `try`: an exception on
one item aborts the loop, keeping only the items appended before it. -/
def collectUntilError (items : List NetItem) (health : Option String → String) : List NetInfo :=
  match items with
  | [] => []
  | item :: rest =>
    match netInfoOfItem item health with
    | .ok info => info :: collectUntilError rest health
    | .error _ => []

/-- Processing of one network resource kind inside `get_network_resources`:
an exception or non-ok listing leaves the entry at its initial
`{count := 0, items := []}`; an ok listing sets `count` to the full item
count before the item loop runs (so a later item exception cannot undo it). -/
def processNetType (resp : Call (List NetItem)) (health : Option String → String) : NetEntry :=
  match resp with
  | none => { count := 0, items := [] }
  | some r =>
    if respOk r then { count := r.body.length, items := collectUntilError r.body health }
    else { count := 0, items := [] }

/-- The eleven network resource kinds, in the insertion order of the
`network_metrics` dict initializer. -/
def networkTypes : List String :=
  ["er_vpn_connections", "expressroute_circuits", "express_route_gateways",
   "network_interfaces", "network_security_groups", "network_virtual_appliances",
   "private_endpoints", "public_ips", "route_tables", "virtual_network_gateways",
   "virtual_networks"]

/-- `get_network_resources`: each kind is listed and processed independently
under its own `try`, so one kind's failure never touches another kind's entry. -/
def get_network_resources (resp : String → Call (List NetItem))
    (health : Option String → String) : List (String × NetEntry) :=
  networkTypes.map (fun t => (t, processNetType (resp t) health))

/-- The modelled upstream world of one run: the token provider's answer and
every HTTP endpoint's behaviour, keyed by resource identifier where the URL
embeds one. -/
structure Env where
  tokenResp : Except String String
  storageResp : Call (List SA)
  capacityResp : String → Call MetricsBody
  metricsResp : String → Call MetricsBody
  vmsResp : Call (List VmDesc)
  arcResp : Call (List VmDesc)
  powerResp : String → VmType → Call InstanceView
  extResp : String → Call (List Ext)
  dcrResp : String → Call (List Unit)
  networkResp : String → Call (List NetItem)
  healthResp : String → Call HealthBody

/-- The health lookup as wired in `get_network_resources`. -/
def healthFn (env : Env) (resource_id : Option String) : String :=
  get_resource_health resource_id (env.healthResp (resource_id.getD ""))

/-- The storage loop of `main`: metrics first, then the row's
`resource_group` via `sa.get("id", "").split("/")[4] if "id" in sa else "N/A"`
(which may raise `IndexError`, uncaught). -/
def processStorageList (env : Env) : List SA → Except String (List SAResult)
  | [] => .ok []
  | sa :: rest =>
    match get_storage_account_metrics sa (env.capacityResp (sa.id.getD ""))
        (env.metricsResp (sa.id.getD "")) with
    | .error e => .error e
    | .ok sa_metrics =>
      match (match sa.id with
             | none => Except.ok "N/A"
             | some rid =>
               match rgSeg rid with
               | some s => Except.ok s
               | none => Except.error "IndexError: list index out of range") with
      | .error e => .error e
      | .ok rg =>
        match processStorageList env rest with
        | .error e => .error e
        | .ok rows =>
          .ok ({ storage_account := sa.name.getD "N/A", resource_group := rg,
                 metrics := sa_metrics } :: rows)

/-- The `for vm in ...: process_vm(...)` loop over one inventory list. -/
def processList (env : Env) (vm_type : VmType) :
    List VmDesc → VmMetrics → Except String VmMetrics
  | [], m => .ok m
  | vm :: rest, m =>
    match process_vm vm vm_type (env.powerResp (vm.id.getD "") vm_type)
        (env.extResp (vm.id.getD "")) (env.dcrResp (vm.id.getD "")) m with
    | .error e => .error e
    | .ok m' => processList env vm_type rest m'

/-- `get_vm_metrics`: native VMs listed and processed, then Arc machines;
either listing's `raise_for_status` aborts the whole function. -/
def get_vm_metricsM (env : Env) : Except String VmMetrics :=
  match get_vms env.vmsResp with
  | .error e => .error e
  | .ok compute_vms =>
    match processList env VmType.Compute compute_vms
        { total_machines := 0, total_monitored := 0, resource_groups := [] } with
    | .error e => .error e
    | .ok m1 =>
      match get_arc_machines env.arcResp with
      | .error e => .error e
      | .ok arc_machines => processList env VmType.Arc arc_machines m1

/-- The three aggregates `main` hands to the reporter. -/
structure RunResult where
  storage : List SAResult
  vms : VmMetrics
  network : List (String × NetEntry)
deriving DecidableEq

/-- `main`: token, storage listing and loop, VM/Arc collection, network
collection; any uncaught exception aborts the run. -/
def mainRun (env : Env) : Except String RunResult :=
  match env.tokenResp with
  | .error e => .error e
  | .ok _ =>
    match get_storage_accounts env.tokenResp env.storageResp with
    | .error e => .error e
    | .ok storage_accounts =>
      match processStorageList env storage_accounts with
      | .error e => .error e
      | .ok metrics_results =>
        match get_vm_metricsM env with
        | .error e => .error e
        | .ok vm_metrics =>
          .ok { storage := metrics_results, vms := vm_metrics,
                network := get_network_resources env.networkResp (healthFn env) }

/-- Process exit code: 0 on normal completion, 1 for an uncaught exception. -/
def exitCode (r : Except String RunResult) : Nat :=
  match r with
  | .ok _ => 0
  | .error _ => 1

/-- Total number of machine records across all resource groups. -/
def countMachines (groups : List (String × List Machine)) : Nat :=
  (groups.map (fun p => p.2.length)).sum

/-- Number of machine records whose `monitored` flag is true, across all
resource groups. -/
def countMonitored (groups : List (String × List Machine)) : Nat :=
  (groups.map (fun p => (p.2.filter (fun x => x.monitored)).length)).sum

/-! Concrete objects used by witness and counterexample theorems. -/

/-- A well-formed storage-account descriptor. -/
def saW : SA :=
  ⟨some "sa1",
   some "/subscriptions/s/resourceGroups/rg1/providers/Microsoft.Storage/storageAccounts/sa1"⟩

/-- A 3-point series with one null `total`. -/
def dpsSumW : List DataPoint := [⟨some 3, none⟩, ⟨none, none⟩, ⟨some 4, none⟩]

/-- A 3-point series with one null `average`. -/
def dpsAvgW : List DataPoint := [⟨none, some 2⟩, ⟨none, none⟩, ⟨none, some 4⟩]

/-- A failed (500) metrics response. -/
def respFail500 : HttpResp MetricsBody := ⟨500, ⟨[]⟩⟩

/-- A failed (404) metrics response. -/
def respFail404 : HttpResp MetricsBody := ⟨404, ⟨[]⟩⟩

/-- A 200 response carrying one Transactions series. -/
def respTransW : HttpResp MetricsBody := ⟨200, ⟨[⟨"Transactions", [some dpsSumW]⟩]⟩⟩

/-- A 200 response carrying one UsedCapacity series. -/
def respCapW : HttpResp MetricsBody := ⟨200, ⟨[⟨"UsedCapacity", [some dpsAvgW]⟩]⟩⟩

/-- A well-formed native-VM descriptor whose group segment is upper-cased. -/
def vmW : VmDesc :=
  ⟨some "vm1",
   some "/subscriptions/s/resourceGroups/RG1/providers/Microsoft.Compute/virtualMachines/vm1"⟩

/-- The aggregate produced by processing `vmW` alone with every detail call
raising. -/
def vmmW : VmMetrics :=
  ⟨1, 0, [("rg1", [⟨"vm1", VmType.Compute, "unknown", false, "Unknown"⟩])]⟩

/-- A health function that answers `"Unknown"` for every resource. -/
def constHealth : Option String → String := fun _ => "Unknown"

/-- A network item whose identifier has an upper-cased group segment. -/
def netItemCaseA : NetItem :=
  ⟨some "v1",
   some "/subscriptions/s/resourceGroups/RG-A/providers/Microsoft.Network/virtualNetworks/v1",
   none⟩

/-- The same network item with the group segment lower-cased. -/
def netItemCaseB : NetItem :=
  ⟨some "v1",
   some "/subscriptions/s/resourceGroups/rg-a/providers/Microsoft.Network/virtualNetworks/v1",
   none⟩

/-- A network transport where exactly the `public_ips` listing fails. -/
def netRespW : String → Call (List NetItem) :=
  fun t => if t = "public_ips" then some ⟨500, []⟩ else some ⟨200, []⟩

/-- An environment whose storage listing answers 500 while everything else,
the token provider included, behaves. -/
def envC1 : Env where
  tokenResp := .ok "token"
  storageResp := some ⟨500, []⟩
  capacityResp := fun _ => none
  metricsResp := fun _ => none
  vmsResp := some ⟨200, []⟩
  arcResp := some ⟨200, []⟩
  powerResp := fun _ _ => none
  extResp := fun _ => none
  dcrResp := fun _ => none
  networkResp := fun _ => some ⟨200, []⟩
  healthResp := fun _ => none

/-- An environment inventorying exactly one native VM (`vmW`) whose detail
calls all raise. -/
def envW : Env where
  tokenResp := .ok "token"
  storageResp := some ⟨200, []⟩
  capacityResp := fun _ => some ⟨200, ⟨[]⟩⟩
  metricsResp := fun _ => some ⟨200, ⟨[]⟩⟩
  vmsResp := some ⟨200, [vmW]⟩
  arcResp := some ⟨200, []⟩
  powerResp := fun _ _ => none
  extResp := fun _ => none
  dcrResp := fun _ => none
  networkResp := fun _ => some ⟨200, []⟩
  healthResp := fun _ => none

section Lemmas

theorem sum_filterMap_total (dps : List DataPoint) :
    (dps.filterMap (fun p => p.total)).sum = (dps.map (fun p => p.total.getD 0)).sum := by
  induction dps with
  | nil => rfl
  | cons p rest ih => cases h : p.total <;> simp [List.filterMap_cons, h, ih]

theorem sum_filterMap_avg (dps : List DataPoint) :
    (dps.filterMap (fun p => p.average)).sum = (dps.map (fun p => p.average.getD 0)).sum := by
  induction dps with
  | nil => rfl
  | cons p rest ih => cases h : p.average <;> simp [List.filterMap_cons, h, ih]

theorem length_filterMap_avg (dps : List DataPoint) :
    (dps.filterMap (fun p => p.average)).length = dps.countP (fun p => p.average.isSome) := by
  induction dps with
  | nil => rfl
  | cons p rest ih =>
    cases h : p.average <;> simp [List.filterMap_cons, List.countP_cons, h, ih]

theorem findPowerState_eq_none (codes : List String)
    (h : ∀ code ∈ codes, pyIn "powerstate" (pyLower code) = false) :
    findPowerState codes = none := by
  induction codes with
  | nil => rfl
  | cons c rest ih =>
    have hc := h c (List.mem_cons_self c rest)
    simp only [findPowerState, hc, Bool.false_eq_true, if_false]
    exact ih fun code hm => h code (List.mem_cons_of_mem c hm)

theorem power_state_fail (ty : VmType) (r : Call InstanceView)
    (h : r = none ∨ ∃ hr, r = some hr ∧ hr.status ≠ 200) :
    get_vm_power_state ty r = "unknown" := by
  rcases h with rfl | ⟨hr, rfl, hst⟩
  · rfl
  · simp [get_vm_power_state, hst]

theorem health_fail (rid : Option String) (r : Call HealthBody)
    (h : rid = none ∨ rid = some "" ∨ r = none ∨ ∃ hr, r = some hr ∧ 400 ≤ hr.status) :
    get_resource_health rid r = "Unknown" := by
  rcases h with rfl | rfl | rfl | ⟨hr, rfl, hst⟩
  · rfl
  · rfl
  · cases rid with
    | none => rfl
    | some s =>
      by_cases hs : s = "" <;> simp [get_resource_health, hs]
  · cases rid with
    | none => rfl
    | some s =>
      by_cases hs : s = "" <;>
        simp [get_resource_health, hs, respOk, Nat.not_lt.mpr hst]

theorem dictInsert_lookup (groups : List (String × List Machine)) (k : String) (mach : Machine) :
    ∃ ms, (dictInsert groups k mach).lookup k = some ms ∧ mach ∈ ms := by
  induction groups with
  | nil => exact ⟨[mach], by simp [dictInsert, List.lookup], by simp⟩
  | cons p rest ih =>
    obtain ⟨k', ms'⟩ := p
    by_cases h : k' = k
    · subst h
      exact ⟨ms' ++ [mach], by simp [dictInsert, List.lookup], by simp⟩
    · obtain ⟨ms, hl, hm⟩ := ih
      have hne : (k == k') = false := beq_eq_false_iff_ne.mpr fun hh => h hh.symm
      exact ⟨ms, by simp [dictInsert, h, List.lookup, hne, hl], hm⟩

theorem process_vm_ok (vm : VmDesc) (ty : VmType) (pw : Call InstanceView)
    (ex : Call (List Ext)) (dc : Call (List Unit)) (m : VmMetrics) (rg : String)
    (h : vmRgName (vm.id.getD "") = .ok rg) :
    process_vm vm ty pw ex dc m = .ok
      ⟨m.total_machines + 1,
       m.total_monitored + (if get_vm_insights_status ex dc = "Enabled" then 1 else 0),
       dictInsert m.resource_groups rg
         ⟨vm.name.getD "Unnamed", ty, get_vm_power_state ty pw,
          get_vm_insights_status ex dc = "Enabled", get_vm_insights_status ex dc⟩⟩ := by
  simp [process_vm, h]

theorem collectUntilError_all_ok (l : List NetItem) (health : Option String → String)
    (h : ∀ item ∈ l, (rgSeg (item.id.getD "")).isSome) :
    collectUntilError l health =
      l.map (fun item => netInfoTotal item health ((rgSeg (item.id.getD "")).getD "")) := by
  induction l with
  | nil => rfl
  | cons item rest ih =>
    obtain ⟨rg, hrg⟩ := Option.isSome_iff_exists.mp (h item (List.mem_cons_self item rest))
    have := ih fun i hi => h i (List.mem_cons_of_mem item hi)
    simp [collectUntilError, netInfoOfItem, hrg, this]

theorem processNetType_fail (r : Call (List NetItem)) (health : Option String → String)
    (h : r = none ∨ ∃ hr, r = some hr ∧ 400 ≤ hr.status) :
    processNetType r health = ⟨0, []⟩ := by
  rcases h with rfl | ⟨hr, rfl, hst⟩
  · rfl
  · simp [processNetType, respOk, Nat.not_lt.mpr hst]

theorem lookup_map_self (f : String → NetEntry) (l : List String) (t : String) (ht : t ∈ l) :
    (l.map (fun x => (x, f x))).lookup t = some (f t) := by
  induction l with
  | nil => simp at ht
  | cons a rest ih =>
    by_cases h : t = a
    · subst h
      simp [List.lookup]
    · have hne : (t == a) = false := beq_eq_false_iff_ne.mpr h
      rcases List.mem_cons.mp ht with h' | h'
      · exact absurd h' h
      · simp [List.lookup, hne, ih h']

theorem dictInsert_countMachines (groups : List (String × List Machine)) (k : String)
    (mach : Machine) : countMachines (dictInsert groups k mach) = countMachines groups + 1 := by
  induction groups with
  | nil => simp [dictInsert, countMachines]
  | cons p rest ih =>
    obtain ⟨k', ms⟩ := p
    by_cases h : k' = k <;> simp [dictInsert, h, countMachines] at ih ⊢ <;> omega

theorem dictInsert_countMonitored (groups : List (String × List Machine)) (k : String)
    (mach : Machine) : countMonitored (dictInsert groups k mach)
      = countMonitored groups + (if mach.monitored then 1 else 0) := by
  induction groups with
  | nil => cases h : mach.monitored <;> simp [dictInsert, countMonitored, List.filter, h]
  | cons p rest ih =>
    obtain ⟨k', ms⟩ := p
    by_cases h : k' = k
    · subst h
      cases hm : mach.monitored
      all_goals simp [dictInsert, countMonitored, List.filter_append, List.filter, hm]
      all_goals omega
    · simp [dictInsert, h, countMonitored] at ih ⊢
      omega

theorem process_vm_counts (vm : VmDesc) (ty : VmType) (pw : Call InstanceView)
    (ex : Call (List Ext)) (dc : Call (List Unit)) (m m' : VmMetrics)
    (h : process_vm vm ty pw ex dc m = .ok m')
    (h1 : m.total_machines = countMachines m.resource_groups)
    (h2 : m.total_monitored = countMonitored m.resource_groups) :
    m'.total_machines = countMachines m'.resource_groups ∧
    m'.total_monitored = countMonitored m'.resource_groups := by
  cases hrg : vmRgName (vm.id.getD "") with
  | error e => simp [process_vm, hrg] at h
  | ok rg =>
    rw [process_vm_ok vm ty pw ex dc m rg hrg, Except.ok.injEq] at h
    subst h
    constructor
    · simp [dictInsert_countMachines, h1]
    · simp only [dictInsert_countMonitored, h2]
      simp

theorem processList_counts (env : Env) (ty : VmType) (l : List VmDesc) :
    ∀ (m m' : VmMetrics), processList env ty l m = .ok m' →
      m.total_machines = countMachines m.resource_groups →
      m.total_monitored = countMonitored m.resource_groups →
      m'.total_machines = countMachines m'.resource_groups ∧
      m'.total_monitored = countMonitored m'.resource_groups := by
  induction l with
  | nil =>
    intro m m' h h1 h2
    simp only [processList, Except.ok.injEq] at h
    subst h
    exact ⟨h1, h2⟩
  | cons vm rest ih =>
    intro m m' h h1 h2
    cases hp : process_vm vm ty (env.powerResp (vm.id.getD "") ty)
        (env.extResp (vm.id.getD "")) (env.dcrResp (vm.id.getD "")) m with
    | error e => simp [processList, hp] at h
    | ok mm =>
      rw [processList, hp] at h
      obtain ⟨g1, g2⟩ := process_vm_counts _ _ _ _ _ _ _ hp h1 h2
      exact ih mm m' h g1 g2

theorem countMonitored_le (groups : List (String × List Machine)) :
    countMonitored groups ≤ countMachines groups := by
  induction groups with
  | nil => exact Nat.le_refl 0
  | cons p rest ih =>
    simp only [countMonitored, countMachines, List.map_cons, List.sum_cons]
    exact Nat.add_le_add (List.length_filter_le _ _) ih

theorem filter_partition (l : List Machine) :
    (l.filter (fun x => x.monitored)).length + (l.filter (fun x => !x.monitored)).length
      = l.length := by
  induction l with
  | nil => rfl
  | cons a t ih => cases h : a.monitored <;> simp [List.filter_cons, h] <;> omega

end Lemmas

/-- C9: a storage-account descriptor with no `id` field makes
`get_storage_account_metrics` return `None` — not an empty mapping — no
matter how either upstream endpoint would behave (even a transport
exception is never raised, so neither call is issued), and the CSV export
substitutes the empty dict for the `None`, rendering all seven metric
columns as the `N/A` marker. -/
theorem C9_missing_id :
    (∀ (sa : SA) (capResp metResp : Call MetricsBody), sa.id = none →
       get_storage_account_metrics sa capResp metResp = .ok none) ∧
    (∀ r : SAResult, r.metrics = none →
       storageMetricCells r = [.na, .na, .na, .na, .na, .na, .na]) := by
  constructor
  · intro sa capResp metResp hid
    simp [get_storage_account_metrics, hid]
  · intro r h
    simp [storageMetricCells, h, dictGet]

/-- C9 witness: a descriptor with no id, against endpoints that would
answer, still yields `None`, and its CSV row renders seven `N/A` cells. -/
theorem C9_witness :
    get_storage_account_metrics ⟨some "sa2", none⟩ (some respTransW) (some respCapW)
      = .ok none ∧
    storageMetricCells ⟨"sa2", "N/A", none⟩ = [.na, .na, .na, .na, .na, .na, .na] :=
  ⟨C9_missing_id.1 ⟨some "sa2", none⟩ _ _ rfl, C9_missing_id.2 ⟨"sa2", "N/A", none⟩ rfl⟩

/-- C10: a 200 instance-view response for a native (Compute) VM whose status
list contains no code with the "powerstate" substring yields `"unknown"`
(the loop falls through), never `"stopped"`. -/
theorem C10_no_powerstate_code (iv : InstanceView)
    (h : ∀ code ∈ iv.statuses, pyIn "powerstate" (pyLower code) = false) :
    get_vm_power_state VmType.Compute (some ⟨200, iv⟩) = "unknown" ∧
    get_vm_power_state VmType.Compute (some ⟨200, iv⟩) ≠ "stopped" := by
  have hf := findPowerState_eq_none iv.statuses h
  constructor
  · simp [get_vm_power_state, hf]
  · simp [get_vm_power_state, hf]

/-- C10 witness: a 200 response whose only status code is a provisioning
state (no power-state code) yields `"unknown"`. -/
theorem C10_witness :
    get_vm_power_state VmType.Compute (some ⟨200, ⟨["ProvisioningState/succeeded"], ""⟩⟩)
        = "unknown" ∧
    get_vm_power_state VmType.Compute (some ⟨200, ⟨["ProvisioningState/succeeded"], ""⟩⟩)
        ≠ "stopped" :=
  C10_no_powerstate_code ⟨["ProvisioningState/succeeded"], ""⟩ (by decide)

/-- C4: for every sum-reduced metric (Transactions, Ingress, Egress), the
computed sample is the sum of the non-null data-point values (equivalently,
the sum with nulls counted as 0), an all-null series yields 0, and the full
collection function records exactly that sample under the metric's key. -/
theorem C4_sum_reduced :
    (∀ dps : List DataPoint,
       sumReduce dps = (dps.map (fun p => p.total.getD 0)).sum) ∧
    (∀ dps : List DataPoint, (∀ p ∈ dps, p.total = none) → sumReduce dps = 0) ∧
    (∀ (sa : SA) (rid : String) (capR : HttpResp MetricsBody) (nm key : String)
       (dps : List DataPoint),
       sa.id = some rid → rid ≠ "" → 400 ≤ capR.status →
       (nm, key) ∈ [("Transactions", "Transactions"), ("Ingress", "Ingress"),
                    ("Egress", "Egress")] →
       get_storage_account_metrics sa (some capR)
         (some { status := 200, body := { value := [{ name := nm, timeseries := [some dps] }] } })
         = .ok (some [(key, sumReduce dps)])) := by
  refine ⟨fun dps => sum_filterMap_total dps, ?_, ?_⟩
  · intro dps h
    unfold sumReduce
    have : dps.filterMap (fun p => p.total) = [] := by
      rw [List.filterMap_eq_nil_iff]
      intro p hp
      simp [h p hp]
    simp [this]
  · intro sa rid capR nm key dps hid hrid hstatus hmem
    have hlt : ¬capR.status < 400 := not_lt.mpr hstatus
    simp only [List.mem_cons, List.mem_singleton, List.not_mem_nil, or_false,
      Prod.mk.injEq] at hmem
    rcases hmem with ⟨rfl, rfl⟩ | ⟨rfl, rfl⟩ | ⟨rfl, rfl⟩ <;>
      simp [get_storage_account_metrics, hid, hrid, callRaise, capacityFold, otherFold,
            respOk, hlt, processOtherMetric, dictSet,
            show pyLower "Transactions" = "transactions" from rfl,
            show pyLower "Ingress" = "ingress" from rfl,
            show pyLower "Egress" = "egress" from rfl,
            show pyCapitalize "ingress" = "Ingress" from rfl,
            show pyCapitalize "egress" = "Egress" from rfl]

/-- C4 witness: the theorem applied at a concrete storage account, a failed
capacity call, and a 3-point Transactions series with one null point. -/
theorem C4_witness :
    get_storage_account_metrics saW (some respFail500) (some respTransW)
      = .ok (some [("Transactions", sumReduce dpsSumW)]) :=
  C4_sum_reduced.2.2 saW _ respFail500 _ _ dpsSumW rfl (by decide) (by decide) (by decide)

/-- C5: for every average-reduced metric (UsedCapacity, SuccessE2ELatency,
SuccessServerLatency, Availability), the computed sample is the arithmetic
mean of the non-null data-point values, a series with no non-null point
reduces to 0, and the full collection function records exactly that sample
under the metric's key (UsedCapacity through the capacity call, the other
three through the dimension-filtered call). -/
theorem C5_average_reduced :
    (∀ dps : List DataPoint,
       avgReduce dps =
         if dps.countP (fun p => p.average.isSome) = 0 then 0
         else (dps.map (fun p => p.average.getD 0)).sum /
              (dps.countP (fun p => p.average.isSome) : ℚ)) ∧
    (∀ dps : List DataPoint, (∀ p ∈ dps, p.average = none) → avgReduce dps = 0) ∧
    (∀ (sa : SA) (rid : String) (metR : HttpResp MetricsBody) (dps : List DataPoint),
       sa.id = some rid → rid ≠ "" → 400 ≤ metR.status →
       get_storage_account_metrics sa
         (some { status := 200,
                 body := { value := [{ name := "UsedCapacity", timeseries := [some dps] }] } })
         (some metR)
         = .ok (some [("UsedCapacity", avgReduce dps)])) ∧
    (∀ (sa : SA) (rid : String) (capR : HttpResp MetricsBody) (nm key : String)
       (dps : List DataPoint),
       sa.id = some rid → rid ≠ "" → 400 ≤ capR.status →
       (nm, key) ∈ [("SuccessE2ELatency", "SuccessE2ELatency"),
                    ("SuccessServerLatency", "SuccessServerLatency"),
                    ("Availability", "Availability")] →
       get_storage_account_metrics sa (some capR)
         (some { status := 200, body := { value := [{ name := nm, timeseries := [some dps] }] } })
         = .ok (some [(key, avgReduce dps)])) := by
  have hchar : ∀ dps : List DataPoint,
      avgReduce dps =
        if dps.countP (fun p => p.average.isSome) = 0 then 0
        else (dps.map (fun p => p.average.getD 0)).sum /
             (dps.countP (fun p => p.average.isSome) : ℚ) := by
    intro dps
    unfold avgReduce
    by_cases h : dps.filterMap (fun p => p.average) = []
    · have hc : dps.countP (fun p => p.average.isSome) = 0 := by
        rw [← length_filterMap_avg, h]
        rfl
      rw [if_pos h, if_pos hc]
    · have hc : ¬dps.countP (fun p => p.average.isSome) = 0 := by
        rw [← length_filterMap_avg]
        simpa [List.length_eq_zero] using h
      rw [if_neg h, if_neg hc, sum_filterMap_avg, length_filterMap_avg]
  refine ⟨hchar, ?_, ?_, ?_⟩
  · intro dps h
    unfold avgReduce
    have he : dps.filterMap (fun p => p.average) = [] := by
      rw [List.filterMap_eq_nil_iff]
      intro p hp
      simp [h p hp]
    rw [if_pos he]
  · intro sa rid metR dps hid hrid hstatus
    have hlt : ¬metR.status < 400 := not_lt.mpr hstatus
    simp [get_storage_account_metrics, hid, hrid, callRaise, capacityFold, otherFold,
          respOk, hlt, processCapacityMetric, dictSet,
          show pyLower "UsedCapacity" = "usedcapacity" from rfl]
  · intro sa rid capR nm key dps hid hrid hstatus hmem
    have hlt : ¬capR.status < 400 := not_lt.mpr hstatus
    simp only [List.mem_cons, List.mem_singleton, List.not_mem_nil, or_false,
      Prod.mk.injEq] at hmem
    rcases hmem with ⟨rfl, rfl⟩ | ⟨rfl, rfl⟩ | ⟨rfl, rfl⟩ <;>
      simp [get_storage_account_metrics, hid, hrid, callRaise, capacityFold, otherFold,
            respOk, hlt, processOtherMetric, dictSet,
            show pyLower "SuccessE2ELatency" = "successe2elatency" from rfl,
            show pyLower "SuccessServerLatency" = "successserverlatency" from rfl,
            show pyLower "Availability" = "availability" from rfl]

/-- C5 witness: the theorem applied at a concrete storage account, a failed
second call, and a 3-point UsedCapacity series with one null point. -/
theorem C5_witness :
    get_storage_account_metrics saW (some respCapW) (some respFail404)
      = .ok (some [("UsedCapacity", avgReduce dpsAvgW)]) :=
  C5_average_reduced.2.2.1 saW _ respFail404 dpsAvgW rfl (by decide) (by decide)


/-- C8 counterexample: with a transport failure on the UsedCapacity call and
a healthy Transactions response on the other call, the other call's samples
are NOT returned — the Normalizer raises, a Normalizer-level failure,
contrary to the claim that a single call failing never is one. -/
theorem C8_counterexample :
    get_storage_account_metrics saW none (some respTransW) = .error "RequestException" := by
  have h : saW.id = some
      "/subscriptions/s/resourceGroups/rg1/providers/Microsoft.Storage/storageAccounts/sa1" := rfl
  simp [get_storage_account_metrics, h, callRaise]

/-- C8 (amended): the Normalizer issues two separate calls merged into one
mapping keyed by metric name; a call that RETURNS a non-success status
contributes no samples while the other returned call's samples are still
returned, and two returned responses never make the Normalizer fail; but a
call that raises a transport exception propagates out of the Normalizer. -/
theorem C8_two_calls :
    (∀ (sa : SA) (rid : String) (r1 r2 : HttpResp MetricsBody),
       sa.id = some rid → rid ≠ "" → 400 ≤ r1.status →
       get_storage_account_metrics sa (some r1) (some r2) = .ok (some (otherFold r2 []))) ∧
    (∀ (sa : SA) (rid : String) (r1 r2 : HttpResp MetricsBody),
       sa.id = some rid → rid ≠ "" → 400 ≤ r2.status →
       get_storage_account_metrics sa (some r1) (some r2)
         = .ok (some (capacityFold r1 []))) ∧
    (∀ (sa : SA) (rid : String) (r1 r2 : HttpResp MetricsBody),
       sa.id = some rid → rid ≠ "" →
       get_storage_account_metrics sa (some r1) (some r2)
         = .ok (some (otherFold r2 (capacityFold r1 [])))) ∧
    (∀ (sa : SA) (rid : String) (r2 : Call MetricsBody),
       sa.id = some rid → rid ≠ "" →
       get_storage_account_metrics sa none r2 = .error "RequestException") := by
  refine ⟨?_, ?_, ?_, ?_⟩
  · intro sa rid r1 r2 hid hrid hst
    have hlt : ¬r1.status < 400 := not_lt.mpr hst
    simp [get_storage_account_metrics, hid, hrid, callRaise, capacityFold, respOk, hlt]
  · intro sa rid r1 r2 hid hrid hst
    have hlt : ¬r2.status < 400 := not_lt.mpr hst
    simp [get_storage_account_metrics, hid, hrid, callRaise, otherFold, respOk, hlt]
  · intro sa rid r1 r2 hid hrid
    simp [get_storage_account_metrics, hid, hrid, callRaise]
  · intro sa rid r2 hid hrid
    simp [get_storage_account_metrics, hid, hrid, callRaise]

/-- C8 witness: a failed (500) capacity call beside a healthy Transactions
response still yields the Transactions samples. -/
theorem C8_witness :
    get_storage_account_metrics saW (some respFail500) (some respTransW)
      = .ok (some (otherFold respTransW [])) :=
  C8_two_calls.1 saW _ respFail500 respTransW rfl (by decide) (by decide)

/-- C6 counterexample: a health lookup answered with status 203 — a non-200
response, so a failed lookup per the claim — returns the body's availability
state instead of the `Unknown` sentinel, because the code tests `response.ok`
(any status below 400), not `status == 200`. -/
theorem C6_counterexample :
    get_resource_health (some "/x") (some ⟨203, ⟨some "Available"⟩⟩) = "Available" ∧
    (203 : Nat) ≠ 200 := by
  constructor
  · rfl
  · decide

/-- C6 (amended): an instance-view lookup that fails (non-200 response or
exception) yields the `"unknown"` sentinel and the VM's record still enters
the aggregate with `power_state = "unknown"` while the total count still
counts it; a health lookup yields `"Unknown"` on a missing identifier, an
exception, or a status of 400 or above (a success-class non-200 response is
instead treated as success); and a listed network resource always counts
toward its kind's `count`, its record carrying whatever the health function
answered. -/
theorem C6_detail_failure :
    (∀ (ty : VmType) (r : Call InstanceView),
       r = none ∨ (∃ hr, r = some hr ∧ hr.status ≠ 200) →
       get_vm_power_state ty r = "unknown") ∧
    (∀ (vm : VmDesc) (ty : VmType) (pw : Call InstanceView) (ex : Call (List Ext))
       (dc : Call (List Unit)) (m : VmMetrics) (rg : String),
       (pw = none ∨ ∃ hr, pw = some hr ∧ hr.status ≠ 200) →
       vmRgName (vm.id.getD "") = .ok rg →
       ∃ m', process_vm vm ty pw ex dc m = .ok m' ∧
         m'.total_machines = m.total_machines + 1 ∧
         ∃ ms, m'.resource_groups.lookup rg = some ms ∧
           ∃ mach ∈ ms, mach.power_state = "unknown") ∧
    (∀ (rid : Option String) (r : Call HealthBody),
       rid = none ∨ rid = some "" ∨ r = none ∨ (∃ hr, r = some hr ∧ 400 ≤ hr.status) →
       get_resource_health rid r = "Unknown") ∧
    (∀ (r : HttpResp (List NetItem)) (health : Option String → String),
       r.status < 400 →
       (processNetType (some r) health).count = r.body.length ∧
       ((∀ item ∈ r.body, (rgSeg (item.id.getD "")).isSome) →
         (processNetType (some r) health).items.length = r.body.length ∧
         ∀ item ∈ r.body, ∃ info ∈ (processNetType (some r) health).items,
           info.health_state = health item.id)) := by
  refine ⟨power_state_fail, ?_, health_fail, ?_⟩
  · intro vm ty pw ex dc m rg hfail hrg
    refine ⟨_, process_vm_ok vm ty pw ex dc m rg hrg, rfl, ?_⟩
    obtain ⟨ms, hl, hm⟩ := dictInsert_lookup m.resource_groups rg
      ⟨vm.name.getD "Unnamed", ty, get_vm_power_state ty pw,
       get_vm_insights_status ex dc = "Enabled", get_vm_insights_status ex dc⟩
    exact ⟨ms, hl, _, hm, power_state_fail ty pw hfail⟩
  · intro r health hok
    have hco : respOk r = true := by
      simp [respOk, hok]
    constructor
    · simp [processNetType, hco]
    · intro hall
      rw [show processNetType (some r) health
            = ⟨r.body.length, collectUntilError r.body health⟩ by simp [processNetType, hco]]
      rw [collectUntilError_all_ok r.body health hall]
      refine ⟨by simp, ?_⟩
      intro item hitem
      exact ⟨netInfoTotal item health ((rgSeg (item.id.getD "")).getD ""),
             List.mem_map_of_mem _ hitem, rfl⟩

/-- C6 witness: a VM whose instance-view call raises still lands in the
aggregate, in its (lower-cased) group, with `power_state = "unknown"`, and
the machine total grows by one. -/
theorem C6_witness :
    ∃ m', process_vm vmW VmType.Compute none none none ⟨0, 0, []⟩ = .ok m' ∧
      m'.total_machines = 0 + 1 ∧
      ∃ ms, m'.resource_groups.lookup "rg1" = some ms ∧
        ∃ mach ∈ ms, mach.power_state = "unknown" :=
  C6_detail_failure.2.1 vmW VmType.Compute none none none ⟨0, 0, []⟩ "rg1"
    (Or.inl rfl) rfl

/-- C3 counterexample: a VM descriptor whose identifier is non-empty but
yields no resource-group segment makes processing raise `IndexError` — the
descriptor is neither assigned to the `unknown` group nor counted, and
processing does fail on it. -/
theorem C3_counterexample :
    process_vm ⟨some "vm-bad", some "malformed-identifier"⟩ VmType.Compute none none none
      ⟨0, 0, []⟩ = .error "IndexError: list index out of range" := rfl

/-- C3 (amended): only a MISSING or empty identifier is assigned to the
sentinel group `unknown` and still counted; a non-empty identifier with no
fifth segment raises an uncaught `IndexError` in VM processing, and a
network item whose identifier yields no group segment aborts its kind's
item loop (the item and everything after it are dropped from `items`, even
though the kind's `count` was already set to the full length). -/
theorem C3_malformed_id :
    (∀ (vm : VmDesc) (ty : VmType) (pw : Call InstanceView) (ex : Call (List Ext))
       (dc : Call (List Unit)) (m : VmMetrics),
       vm.id = none ∨ vm.id = some "" →
       ∃ m', process_vm vm ty pw ex dc m = .ok m' ∧
         m'.total_machines = m.total_machines + 1 ∧
         ∃ ms, m'.resource_groups.lookup "unknown" = some ms ∧ ms ≠ []) ∧
    (∀ (vm : VmDesc) (ty : VmType) (pw : Call InstanceView) (ex : Call (List Ext))
       (dc : Call (List Unit)) (m : VmMetrics) (rid : String),
       vm.id = some rid → rid ≠ "" → rgSeg rid = none →
       process_vm vm ty pw ex dc m = .error "IndexError: list index out of range") ∧
    (∀ (item : NetItem) (rest : List NetItem) (health : Option String → String),
       rgSeg (item.id.getD "") = none →
       collectUntilError (item :: rest) health = []) ∧
    (∀ (r : HttpResp (List NetItem)) (health : Option String → String),
       r.status < 400 → (processNetType (some r) health).count = r.body.length) := by
  refine ⟨?_, ?_, ?_, ?_⟩
  · intro vm ty pw ex dc m hid
    have hrg : vmRgName (vm.id.getD "") = .ok "unknown" := by
      rcases hid with h | h <;> simp [h, vmRgName]
    refine ⟨_, process_vm_ok vm ty pw ex dc m "unknown" hrg, rfl, ?_⟩
    obtain ⟨ms, hl, hm⟩ := dictInsert_lookup m.resource_groups "unknown"
      ⟨vm.name.getD "Unnamed", ty, get_vm_power_state ty pw,
       get_vm_insights_status ex dc = "Enabled", get_vm_insights_status ex dc⟩
    exact ⟨ms, hl, List.ne_nil_of_mem hm⟩
  · intro vm ty pw ex dc m rid hid hne hseg
    simp [process_vm, vmRgName, hid, hne, hseg]
  · intro item rest health h
    simp [collectUntilError, netInfoOfItem, h]
  · intro r health hok
    simp [processNetType, respOk, hok]

/-- C3 witness: a VM descriptor with no identifier at all is assigned to the
`unknown` group and counted. -/
theorem C3_witness :
    ∃ m', process_vm ⟨some "vm-noid", none⟩ VmType.Arc none none none ⟨0, 0, []⟩ = .ok m' ∧
      m'.total_machines = 0 + 1 ∧
      ∃ ms, m'.resource_groups.lookup "unknown" = some ms ∧ ms ≠ [] :=
  C3_malformed_id.1 ⟨some "vm-noid", none⟩ VmType.Arc none none none ⟨0, 0, []⟩ (Or.inl rfl)

/-- C2 counterexample: two network-resource identifiers that differ only in
the case of the resource-group segment (their lower-casings coincide) map to
DIFFERENT group keys, because the network path extracts the segment without
lower-casing it. -/
theorem C2_counterexample :
    pyLower (netItemCaseA.id.getD "") = pyLower (netItemCaseB.id.getD "") ∧
    (netInfoOfItem netItemCaseA constHealth).toOption.map (fun i => i.resource_group)
      ≠ (netInfoOfItem netItemCaseB constHealth).toOption.map (fun i => i.resource_group) := by
  constructor
  · rfl
  · decide

/-- C2 (amended): group-key derivation is deterministic everywhere (it is a
function of the identifier), but only the VM/Arc key is case-normalized:
identifiers whose group segments agree up to case get the same VM key; the
network key and the storage-row key are the raw segment, case preserved. -/
theorem C2_group_key :
    (∀ (id1 id2 s1 s2 : String),
       id1 ≠ "" → id2 ≠ "" → rgSeg id1 = some s1 → rgSeg id2 = some s2 →
       pyLower s1 = pyLower s2 → vmRgName id1 = vmRgName id2) ∧
    (∀ (item : NetItem) (health : Option String → String) (rg : String),
       rgSeg (item.id.getD "") = some rg →
       netInfoOfItem item health = .ok (netInfoTotal item health rg)) ∧
    (∀ (env : Env) (sa : SA) (rid s : String) (rows : List SAResult),
       sa.id = some rid → rgSeg rid = some s →
       processStorageList env [sa] = .ok rows →
       rows.map (fun r => r.resource_group) = [s]) := by
  refine ⟨?_, ?_, ?_⟩
  · intro id1 id2 s1 s2 h1 h2 hs1 hs2 heq
    rw [vmRgName, if_neg h1, hs1, vmRgName, if_neg h2, hs2]
    simp [heq]
  · intro item health rg h
    simp [netInfoOfItem, h]
  · intro env sa rid s rows hid hseg hrows
    simp only [processStorageList, hid, Option.getD_some, hseg] at hrows
    cases hm : get_storage_account_metrics sa (env.capacityResp rid) (env.metricsResp rid) with
    | error e =>
      rw [hm] at hrows
      simp at hrows
    | ok v =>
      rw [hm] at hrows
      simp only [Except.ok.injEq] at hrows
      subst hrows
      rfl

/-- C2 witness: two VM identifiers whose group segments differ only in case
receive the same VM group key. -/
theorem C2_witness :
    vmRgName "/subscriptions/s/resourceGroups/RG-A/providers/x"
      = vmRgName "/subscriptions/s/resourceGroups/rg-a/providers/x" :=
  C2_group_key.1 _ _ "RG-A" "rg-a" (by decide) (by decide) rfl rfl (by decide)

/-- C7: after VM aggregation, the global monitored counter equals the number
of records whose monitored flag is true, the global machine counter equals
the number of records, monitored plus not-monitored (the displayed
`total - monitored`) gives back the total, and within every resource-group
summary the monitored/not-monitored partition of its records is exact. -/
theorem C7_monitored_invariant (env : Env) (m' : VmMetrics)
    (h : get_vm_metricsM env = .ok m') :
    m'.total_monitored = countMonitored m'.resource_groups ∧
    m'.total_machines = countMachines m'.resource_groups ∧
    m'.total_monitored + (m'.total_machines - m'.total_monitored) = m'.total_machines ∧
    ∀ g ∈ m'.resource_groups,
      (g.2.filter (fun x => x.monitored)).length
        + (g.2.filter (fun x => !x.monitored)).length = g.2.length := by
  have hcounts : m'.total_machines = countMachines m'.resource_groups ∧
      m'.total_monitored = countMonitored m'.resource_groups := by
    rw [get_vm_metricsM] at h
    cases hv : get_vms env.vmsResp with
    | error e => rw [hv] at h; simp at h
    | ok compute_vms =>
      rw [hv] at h
      dsimp only at h
      cases hc : processList env VmType.Compute compute_vms ⟨0, 0, []⟩ with
      | error e => rw [hc] at h; simp at h
      | ok m1 =>
        rw [hc] at h
        dsimp only at h
        cases ha : get_arc_machines env.arcResp with
        | error e => rw [ha] at h; simp at h
        | ok arc_machines =>
          rw [ha] at h
          dsimp only at h
          obtain ⟨g1, g2⟩ := processList_counts env VmType.Compute compute_vms
            ⟨0, 0, []⟩ m1 hc rfl rfl
          exact processList_counts env VmType.Arc arc_machines m1 m' h g1 g2
  obtain ⟨h1, h2⟩ := hcounts
  refine ⟨h2, h1, ?_, fun g _ => filter_partition g.2⟩
  have hle : m'.total_monitored ≤ m'.total_machines := by
    rw [h1, h2]
    exact countMonitored_le m'.resource_groups
  omega

/-- C7 witness: the invariant holds for the aggregate `envW` produces — one
unmonitored native VM in group `rg1`. -/
theorem C7_witness :
    vmmW.total_monitored = countMonitored vmmW.resource_groups ∧
    vmmW.total_machines = countMachines vmmW.resource_groups ∧
    vmmW.total_monitored + (vmmW.total_machines - vmmW.total_monitored)
      = vmmW.total_machines ∧
    ∀ g ∈ vmmW.resource_groups,
      (g.2.filter (fun x => x.monitored)).length
        + (g.2.filter (fun x => !x.monitored)).length = g.2.length :=
  C7_monitored_invariant envW vmmW rfl

/-- C1 counterexample: with a working token provider and a storage listing
answering 500, the run does not complete with exit code 0 and no other kind
is collected — `raise_for_status` propagates out of `main` — refuting the
claim that a listing failure is fatal for that resource kind only. -/
theorem C1_counterexample :
    envC1.tokenResp = .ok "token" ∧
    mainRun envC1 = .error "HTTPError" ∧
    exitCode (mainRun envC1) = 1 :=
  ⟨rfl, rfl, rfl⟩

/-- C1 (amended): only the eleven NETWORK sub-kinds have per-kind
partial-failure semantics — each sub-kind's entry is computed from its own
listing alone, and a failed sub-kind listing just leaves that entry empty;
a storage-account listing failure instead raises an uncaught error that
aborts the whole run with a non-zero exit code, and a token-provider
failure likewise aborts with a non-zero exit code. -/
theorem C1_listing_failure :
    (∀ (env : Env) (t : String) (r : HttpResp (List SA)),
       env.tokenResp = .ok t → env.storageResp = some r → 400 ≤ r.status →
       mainRun env = .error "HTTPError" ∧ exitCode (mainRun env) ≠ 0) ∧
    (∀ (env : Env) (e : String), env.tokenResp = .error e →
       mainRun env = .error e ∧ exitCode (mainRun env) ≠ 0) ∧
    (∀ (resp : String → Call (List NetItem)) (health : Option String → String) (t : String),
       t ∈ networkTypes →
       resp t = none ∨ (∃ hr, resp t = some hr ∧ 400 ≤ hr.status) →
       (get_network_resources resp health).lookup t = some ⟨0, []⟩) ∧
    (∀ (resp : String → Call (List NetItem)) (health : Option String → String) (t : String),
       t ∈ networkTypes →
       (get_network_resources resp health).lookup t
         = some (processNetType (resp t) health)) := by
  refine ⟨?_, ?_, ?_, ?_⟩
  · intro env t r htok hst hge
    have : mainRun env = .error "HTTPError" := by
      simp [mainRun, htok, get_storage_accounts, listCall, hst, hge]
    exact ⟨this, by simp [this, exitCode]⟩
  · intro env e htok
    have : mainRun env = .error e := by
      simp [mainRun, htok]
    exact ⟨this, by simp [this, exitCode]⟩
  · intro resp health t ht hfail
    rw [get_network_resources, lookup_map_self _ networkTypes t ht,
        processNetType_fail (resp t) health hfail]
  · intro resp health t ht
    rw [get_network_resources, lookup_map_self _ networkTypes t ht]

/-- C1 witness: the amended theorem at the concrete `envC1` (storage listing
answers 500, token fine) and at a network transport where exactly the
`public_ips` listing fails — that entry is empty while `virtual_networks`
is still computed from its own healthy listing. -/
theorem C1_witness :
    (mainRun envC1 = .error "HTTPError" ∧ exitCode (mainRun envC1) ≠ 0) ∧
    (get_network_resources netRespW constHealth).lookup "public_ips" = some ⟨0, []⟩ ∧
    (get_network_resources netRespW constHealth).lookup "virtual_networks"
      = some (processNetType (netRespW "virtual_networks") constHealth) :=
  ⟨C1_listing_failure.1 envC1 "token" ⟨500, []⟩ rfl rfl (by norm_num),
   C1_listing_failure.2.2.1 netRespW constHealth "public_ips" (by decide)
     (Or.inr ⟨⟨500, []⟩, rfl, by norm_num⟩),
   C1_listing_failure.2.2.2 netRespW constHealth "virtual_networks" (by decide)⟩
